import Mathlib

/-!
Shallow embedding of the RuralEdu authentication service:
the signup handler (frontend/src/app/api/auth/signup/route.ts),
the login handler (frontend/src/app/api/auth/login/route.ts; the file in the
repository carries an unresolved merge conflict, and we embed the HEAD
variant, lines 2-98, which is the variant the specification line references
point into: zod validation, identical "Invalid email or password" responses,
bearer token in the JSON body),
the token helpers (frontend/src/lib/auth.ts), and
the "who am I" handler (the GET /api/auth/me route).

Third-party collaborators are modelled executably:
the bcrypt hash is an injective tagging function, JSON bodies are a small
inductive mirroring what NextResponse.json serialises, a signed JWT is a
record of its payload, signing secret and expiry, and the serialised token
as it travels on the wire is either such a record or garbage (the abstraction
of a string that jwt.verify throws on).
-/

namespace RuralEdu

/-- JSON values as produced by NextResponse.json. `tokenStrOf` stands for
the serialised JWT string placed in a body field. -/
inductive Json where
  | null : Json
  | bool (b : Bool) : Json
  | num (n : Nat) : Json
  | str (s : String) : Json
  | tokenStrOf (payloadId payloadEmail payloadRole secret : String) (exp : Nat) : Json
  | arr (elems : List Json) : Json
  | obj (fields : List (String × Json)) : Json
  deriving Repr

mutual

/-- Whether a JSON value contains a field named `k`, at any depth. -/
def Json.hasKey : Json → String → Bool
  | Json.obj fs, k => hasKeyFields fs k
  | Json.arr es, k => hasKeyElems es k
  | _, _ => false

/-- Field-list companion of `Json.hasKey`. -/
def hasKeyFields : List (String × Json) → String → Bool
  | [], _ => false
  | f :: rest, k => f.1 == k || Json.hasKey f.2 k || hasKeyFields rest k

/-- Element-list companion of `Json.hasKey`. -/
def hasKeyElems : List Json → String → Bool
  | [], _ => false
  | e :: rest, k => Json.hasKey e k || hasKeyElems rest k

end

/-- The persisted User row (prisma model: id, email, fullName, password,
role, dateOfBirth, createdAt, updatedAt). The `password` column stores the
bcrypt hash; the spec calls this field `passwordHash`. Timestamps are
seconds; dateOfBirth is kept as the optional incoming string. -/
structure User where
  id : String
  email : String
  password : String
  fullName : Option String
  role : String
  dateOfBirth : Option String
  createdAt : Nat
  updatedAt : Nat
  deriving Repr, DecidableEq

/-- The users table. -/
abbrev Db := List User

/-- prisma.user.findUnique on the unique email column. -/
def findByEmail (db : Db) (e : String) : Option User :=
  List.find? (fun u => u.email == e) db

/-- prisma.user.findUnique on the id primary key. -/
def findById (db : Db) (i : String) : Option User :=
  List.find? (fun u => u.id == i) db

/-- Model of bcrypt.hash: an injective, deterministic tagging of the
plaintext with the cost factor. -/
def bcryptHash (pw : String) (cost : Nat) : String :=
  "bcrypt" ++ toString cost ++ "$" ++ pw

/-- Model of bcrypt.compare against hashes produced with cost factor 10,
the only cost the repository uses. -/
def bcryptCompare (pw stored : String) : Bool :=
  bcryptHash pw 10 == stored

/-- The claims a token carries (lib/auth.ts JWTPayload; the login route
signs exactly these three fields). -/
structure JWTPayload where
  id : String
  email : String
  role : String
  deriving Repr, DecidableEq

/-- A signed JWT: its payload, the secret it was signed with, and the
absolute expiry time (seconds). -/
structure SignedToken where
  payload : JWTPayload
  secret : String
  exp : Nat
  deriving Repr, DecidableEq

/-- jwt.sign with an expiresIn duration, at current time `now`. -/
def jwtSign (p : JWTPayload) (secret : String) (expiresInSec now : Nat) : SignedToken :=
  ⟨p, secret, now + expiresInSec⟩

/-- jwt.verify, totalised: the source wraps the throwing call in try/catch
and returns null on bad signature or elapsed expiry, which is `none` here. -/
def jwtVerify (t : SignedToken) (secret : String) (now : Nat) : Option JWTPayload :=
  if t.secret = secret ∧ now < t.exp then some t.payload else none

/-- The seven-day expiresIn used by the login route and generateToken. -/
def sevenDaysSec : Nat := 7 * 24 * 60 * 60

/-- Process environment: process.env.JWT_SECRET and process.env.NODE_ENV. -/
structure Env where
  jwtSecretVar : Option String
  nodeEnv : String
  deriving Repr

/-- The module-level constant with its insecure hardcoded fallback. -/
def JWT_SECRET (env : Env) : String :=
  env.jwtSecretVar.getD "ruraledu-secret-key-change-in-production"

/-- A serialised token on the wire: either an intact signed token, or a
string jwt.verify throws on (malformed). -/
inductive TokenWire where
  | signed (t : SignedToken) : TokenWire
  | malformed (s : String) : TokenWire
  deriving Repr, DecidableEq

/-- The authorization header value: either a string of the shape
Bearer-space-token, or any other (or empty) header string. -/
inductive HeaderValue where
  | bearer (w : TokenWire) : HeaderValue
  | nonBearer (s : String) : HeaderValue
  deriving Repr, DecidableEq

/-- An incoming request to the me endpoint: the optional authorization
header, and the optional value of the named session cookie. The cookie is
part of the transport surface the spec describes; whether the code reads it
is exactly what is at issue. -/
structure MeRequest where
  authorization : Option HeaderValue
  sessionCookie : Option TokenWire
  deriving Repr, DecidableEq

/-- lib/auth.ts verifyToken: read the authorization header; if absent or not
of the Bearer shape return null; otherwise strip the Bearer prefix and
jwt.verify the rest under the module secret, with the throw caught to null.
Total by construction. The request cookies are never consulted. -/
def verifyToken (env : Env) (now : Nat) (req : MeRequest) : Option JWTPayload :=
  match req.authorization with
  | none => none
  | some (HeaderValue.nonBearer _) => none
  | some (HeaderValue.bearer (TokenWire.malformed _)) => none
  | some (HeaderValue.bearer (TokenWire.signed t)) => jwtVerify t (JWT_SECRET env) now

/-- lib/auth.ts generateToken: jwt.sign with the module secret and 7d. -/
def generateToken (env : Env) (now : Nat) (p : JWTPayload) : SignedToken :=
  jwtSign p (JWT_SECRET env) sevenDaysSec now

/-- An HTTP response: status code and JSON body. -/
structure HttpResponse where
  status : Nat
  body : Json
  deriving Repr

/-- JSON of an optional string column (null when absent). -/
def jsonOfOptStr : Option String → Json
  | none => Json.null
  | some s => Json.str s

/-- The serialisation of a full User row, in column order. -/
def userJsonFields (u : User) : List (String × Json) :=
  [("id", Json.str u.id),
   ("email", Json.str u.email),
   ("fullName", jsonOfOptStr u.fullName),
   ("password", Json.str u.password),
   ("role", Json.str u.role),
   ("dateOfBirth", jsonOfOptStr u.dateOfBirth),
   ("createdAt", Json.num u.createdAt),
   ("updatedAt", Json.num u.updatedAt)]

/-- The rest-spread that drops the password column before responding. -/
def userWithoutPassword (u : User) : Json :=
  Json.obj (List.filter (fun f => f.1 != "password") (userJsonFields u))

/-- JS truthiness of a possibly-absent string body field: `!x` holds when
the field is missing or the empty string. -/
def falsyStr : Option String → Bool
  | none => true
  | some s => s.isEmpty

/-- The parsed signup request body. -/
structure SignupBody where
  email : Option String
  password : Option String
  fullName : Option String
  role : Option String
  dateOfBirth : Option String
  deriving Repr

/-- POST /api/auth/signup. `newId` stands for the id the persistence layer
generates for a created row; `dbError` models a persistence-layer throw
(caught by the catch-all, which responds 500 with the stringified error in
a details field). Returns the response and the resulting table. -/
def signupPOST (db : Db) (now : Nat) (newId : String) (dbError : Option String)
    (body : SignupBody) : HttpResponse × Db :=
  if falsyStr body.email || falsyStr body.password || falsyStr body.role then
    (⟨400, Json.obj [("error", Json.str "Missing required fields")]⟩, db)
  else
    match dbError with
    | some e =>
        (⟨500, Json.obj [("error", Json.str "Something went wrong"),
                         ("details", Json.str e)]⟩, db)
    | none =>
        match findByEmail db (body.email.getD "") with
        | some _ =>
            (⟨400, Json.obj [("error", Json.str "User already exists")]⟩, db)
        | none =>
            let newUser : User :=
              ⟨newId, body.email.getD "", bcryptHash (body.password.getD "") 10,
               body.fullName, body.role.getD "", body.dateOfBirth, now, now⟩
            (⟨201, userWithoutPassword newUser⟩, db ++ [newUser])

/-- The parsed login request body. -/
structure LoginBody where
  email : Option String
  password : Option String
  deriving Repr

/-- Executable abstraction of the zod z.string().email() check used by the
login schema: exactly one at-sign, non-empty local part, non-empty domain
containing a dot. -/
def zodEmailOk (s : String) : Bool :=
  let cs := s.data
  List.count '@' cs == 1 &&
  !(List.takeWhile (fun c => c != '@') cs).isEmpty &&
  (let dom := List.drop 1 (List.dropWhile (fun c => c != '@') cs)
   !dom.isEmpty && List.contains dom '.')

/-- The issues loginSchema.safeParse reports, as the zod error messages the
schema declares; empty exactly when validation succeeds. -/
def loginValidationErrors (body : LoginBody) : List Json :=
  (match body.email with
   | none => [Json.obj [("message", Json.str "Required")]]
   | some s =>
       if zodEmailOk s then []
       else [Json.obj [("message", Json.str "Invalid email address")]]) ++
  (match body.password with
   | none => [Json.obj [("message", Json.str "Required")]]
   | some p =>
       if p.isEmpty then [Json.obj [("message", Json.str "Password is required")]]
       else [])

/-- The identical response for an unknown email and for a wrong password. -/
def invalidCredsBody : Json :=
  Json.obj [("success", Json.bool false),
            ("message", Json.str "Invalid email or password")]

/-- POST /api/auth/login (the HEAD variant of the conflicted file). Returns
the response and, on success, the issued token. The catch response includes
the stringified error only under NODE_ENV development (JSON.stringify drops
the undefined field otherwise). -/
def loginPOST (env : Env) (db : Db) (now : Nat) (dbError : Option String)
    (body : LoginBody) : HttpResponse × Option SignedToken :=
  if (loginValidationErrors body).isEmpty = false then
    (⟨400, Json.obj [("success", Json.bool false),
                     ("message", Json.str "Validation failed"),
                     ("errors", Json.arr (loginValidationErrors body))]⟩, none)
  else
    match dbError with
    | some e =>
        (⟨500, Json.obj ([("success", Json.bool false),
                          ("message", Json.str "Internal server error")] ++
                         (if env.nodeEnv == "development"
                          then [("error", Json.str e)] else []))⟩, none)
    | none =>
        match findByEmail db (body.email.getD "") with
        | none => (⟨401, invalidCredsBody⟩, none)
        | some user =>
            if bcryptCompare (body.password.getD "") user.password = false then
              (⟨401, invalidCredsBody⟩, none)
            else
              let token :=
                jwtSign ⟨user.id, user.email, user.role⟩ (JWT_SECRET env)
                  sevenDaysSec now
              (⟨200, Json.obj
                  [("success", Json.bool true),
                   ("message", Json.str "Login successful"),
                   ("token", Json.tokenStrOf token.payload.id token.payload.email
                      token.payload.role token.secret token.exp),
                   ("user", userWithoutPassword user)]⟩, some token)

/-- The select clause of the me route: id, fullName, email, role, createdAt. -/
def meSelectJson (u : User) : Json :=
  Json.obj [("id", Json.str u.id),
            ("fullName", jsonOfOptStr u.fullName),
            ("email", Json.str u.email),
            ("role", Json.str u.role),
            ("createdAt", Json.num u.createdAt)]

/-- GET /api/auth/me: verify the token; 401 when verification fails; fetch
the user by the id embedded in the payload; 404 when absent; 200 with the
selected public fields otherwise. `dbError` models a throw at the prisma
call, which the catch-all maps to a generic 500. -/
def meGET (env : Env) (db : Db) (now : Nat) (dbError : Option String)
    (req : MeRequest) : HttpResponse :=
  match verifyToken env now req with
  | none =>
      ⟨401, Json.obj [("success", Json.bool false),
                      ("message", Json.str "Unauthorized - Invalid or missing token")]⟩
  | some payload =>
      match dbError with
      | some _ =>
          ⟨500, Json.obj [("success", Json.bool false),
                          ("message", Json.str "Internal server error")]⟩
      | none =>
          match findById db payload.id with
          | none =>
              ⟨404, Json.obj [("success", Json.bool false),
                              ("message", Json.str "User not found")]⟩
          | some u =>
              ⟨200, Json.obj [("success", Json.bool true),
                              ("user", meSelectJson u)]⟩

/-! ### Helper lemmas -/

/-- Optional-string JSON carries no object keys. -/
theorem jsonOfOptStr_hasKey (o : Option String) (k : String) :
    Json.hasKey (jsonOfOptStr o) k = false := by
  cases o <;> rfl

theorem hasKey_null (k : String) : Json.hasKey Json.null k = false := rfl

theorem hasKey_bool (b : Bool) (k : String) : Json.hasKey (Json.bool b) k = false := rfl

theorem hasKey_num (n : Nat) (k : String) : Json.hasKey (Json.num n) k = false := rfl

theorem hasKey_str (s k : String) : Json.hasKey (Json.str s) k = false := rfl

theorem hasKey_tokenStrOf (a b c d : String) (e : Nat) (k : String) :
    Json.hasKey (Json.tokenStrOf a b c d e) k = false := rfl

theorem hasKey_arr (es : List Json) (k : String) :
    Json.hasKey (Json.arr es) k = hasKeyElems es k := rfl

theorem hasKey_obj (fs : List (String × Json)) (k : String) :
    Json.hasKey (Json.obj fs) k = hasKeyFields fs k := rfl

theorem hasKeyFields_nil (k : String) : hasKeyFields [] k = false := rfl

theorem hasKeyFields_cons (f : String × Json) (rest : List (String × Json)) (k : String) :
    hasKeyFields (f :: rest) k = (f.1 == k || Json.hasKey f.2 k || hasKeyFields rest k) := rfl

/-- The rest-spread user serialisation has no password field. -/
theorem userWithoutPassword_no_password (u : User) :
    Json.hasKey (userWithoutPassword u) "password" = false := by
  cases hf : u.fullName <;> cases hd : u.dateOfBirth <;>
    simp [userWithoutPassword, userJsonFields, jsonOfOptStr, Json.hasKey,
      hasKeyFields, hf, hd, List.filter]

/-- The me select clause has no password field. -/
theorem meSelectJson_no_password (u : User) :
    Json.hasKey (meSelectJson u) "password" = false := by
  cases hf : u.fullName <;>
    simp [meSelectJson, jsonOfOptStr, Json.hasKey, hasKeyFields, hf]

/-- The zod issue list has no password field. -/
theorem loginValidationErrors_no_password (b : LoginBody) :
    hasKeyElems (loginValidationErrors b) "password" = false := by
  cases he : b.email with
  | none =>
      cases hp : b.password with
      | none =>
          simp [loginValidationErrors, he, hp, Json.hasKey, hasKeyElems,
            hasKeyFields]
      | some p =>
          by_cases hpe : p.isEmpty <;>
            simp [loginValidationErrors, he, hp, hpe, Json.hasKey, hasKeyElems,
              hasKeyFields]
  | some s =>
      cases hp : b.password with
      | none =>
          by_cases hse : zodEmailOk s <;>
            simp [loginValidationErrors, he, hp, hse, Json.hasKey, hasKeyElems,
              hasKeyFields]
      | some p =>
          by_cases hse : zodEmailOk s <;> by_cases hpe : p.isEmpty <;>
            simp [loginValidationErrors, he, hp, hse, hpe, Json.hasKey,
              hasKeyElems, hasKeyFields]

/-- Searching an append whose first part yields nothing searches the second. -/
theorem find?_append_of_none {α : Type} (p : α → Bool) (as bs : List α)
    (h : List.find? p as = none) :
    List.find? p (as ++ bs) = List.find? p bs := by
  induction as with
  | nil => rfl
  | cons a as ih =>
      rw [List.find?] at h
      cases hpa : p a with
      | true => simp [hpa] at h
      | false =>
          rw [hpa] at h
          simp only [List.cons_append, List.find?, hpa]
          exact ih h

/-! ### Concrete fixtures for witnesses -/

/-- A stored user row used as a fixture. -/
def userA : User :=
  ⟨"u1", "a@b.com", bcryptHash "secret123" 10, some "Ann", "LEARNER", none, 0, 0⟩

/-- A production-posture environment fixture. -/
def envProd : Env := ⟨some "topsecret", "production"⟩

/-- A token as login would issue it for the fixture user at time 0. -/
def tokA : SignedToken :=
  jwtSign ⟨"u1", "a@b.com", "LEARNER"⟩ (JWT_SECRET envProd) sevenDaysSec 0

/-- Verification fails on a wrong secret or an elapsed expiry. -/
theorem jwtVerify_eq_none (t : SignedToken) (secret : String) (now : Nat)
    (h : t.secret ≠ secret ∨ t.exp ≤ now) : jwtVerify t secret now = none := by
  unfold jwtVerify
  rw [if_neg]
  rintro ⟨h1, h2⟩
  rcases h with h | h
  · exact h h1
  · omega

/-! ### Claim theorems -/

/-- C1: for every request to signup, login, or the me endpoint, and for
every outcome (success or failure), the response body carries no field named
password, the column that stores the hash. -/
theorem responses_never_contain_password_field
    (env : Env) (db : Db) (now : Nat) (newId : String) (de : Option String)
    (sb : SignupBody) (lb : LoginBody) (req : MeRequest) :
    Json.hasKey (signupPOST db now newId de sb).1.body "password" = false ∧
    Json.hasKey (loginPOST env db now de lb).1.body "password" = false ∧
    Json.hasKey (meGET env db now de req).body "password" = false := by
  refine ⟨?_, ?_, ?_⟩
  · unfold signupPOST
    split
    · rfl
    · split
      · rfl
      · split
        · rfl
        · exact userWithoutPassword_no_password _
  · unfold loginPOST
    split
    · simp [hasKey_obj, hasKeyFields_cons, hasKeyFields_nil, hasKey_bool,
        hasKey_str, hasKey_arr, loginValidationErrors_no_password]
    · split
      · cases hdev : (env.nodeEnv == "development") <;>
          simp [hdev, hasKey_obj, hasKeyFields_cons, hasKeyFields_nil,
            hasKey_bool, hasKey_str]
      · split
        · rfl
        · split
          · rfl
          · simp [hasKey_obj, hasKeyFields_cons, hasKeyFields_nil, hasKey_bool,
              hasKey_str, hasKey_tokenStrOf, userWithoutPassword_no_password]
  · unfold meGET
    split
    · rfl
    · split
      · rfl
      · split
        · rfl
        · simp [hasKey_obj, hasKeyFields_cons, hasKeyFields_nil, hasKey_bool,
            meSelectJson_no_password]

/-- C4: when a user with the requested email already exists and the request
is otherwise well-formed, signup answers the user-already-exists conflict
response and leaves the table unchanged: no create occurs. -/
theorem signup_duplicate_email_conflict
    (db : Db) (now : Nat) (newId : String) (sb : SignupBody) (u : User)
    (hemail : falsyStr sb.email = false)
    (hpw : falsyStr sb.password = false)
    (hrole : falsyStr sb.role = false)
    (hex : findByEmail db (sb.email.getD "") = some u) :
    signupPOST db now newId none sb =
      (⟨400, Json.obj [("error", Json.str "User already exists")]⟩, db) := by
  unfold signupPOST
  simp [hemail, hpw, hrole, hex]

/-- C4 witness: a second signup with the fixture email conflicts and the
table is left holding exactly the first row. -/
theorem signup_duplicate_email_conflict_witness :
    signupPOST [userA] 5 "u2" none
        ⟨some "a@b.com", some "otherpw", none, some "TEACHER", none⟩ =
      (⟨400, Json.obj [("error", Json.str "User already exists")]⟩, [userA]) :=
  signup_duplicate_email_conflict [userA] 5 "u2"
    ⟨some "a@b.com", some "otherpw", none, some "TEACHER", none⟩ userA
    (by decide) (by decide) (by decide) (by decide)

/-- C9 counterexample: a signup request supplying email and password but
omitting role is rejected with the missing-fields 400 and creates nothing;
the claim that signup proceeds with a defaulted role is false here. -/
theorem signup_omitted_role_rejected_counterexample :
    signupPOST [] 0 "u1" none
        ⟨some "a@b.com", some "secret123", some "Ann", none, none⟩ =
      (⟨400, Json.obj [("error", Json.str "Missing required fields")]⟩, []) := rfl

/-- C9 amended: role is required, not defaulted — every signup request whose
role field is missing or empty is rejected with the missing-fields 400 and
the table is unchanged. -/
theorem signup_omitted_role_rejected
    (db : Db) (now : Nat) (newId : String) (de : Option String) (sb : SignupBody)
    (hrole : falsyStr sb.role = true) :
    signupPOST db now newId de sb =
      (⟨400, Json.obj [("error", Json.str "Missing required fields")]⟩, db) := by
  unfold signupPOST
  simp [hrole]

/-- C9 amended witness: the rejection at a concrete role-less request. -/
theorem signup_omitted_role_rejected_witness :
    signupPOST [] 0 "u1" none ⟨some "b@c.com", some "pw", none, none, none⟩ =
      (⟨400, Json.obj [("error", Json.str "Missing required fields")]⟩, []) :=
  signup_omitted_role_rejected [] 0 "u1" none
    ⟨some "b@c.com", some "pw", none, none, none⟩ (by decide)

/-- C10 counterexample: an email that fails the syntactic check the login
schema itself uses is nevertheless accepted by signup, which creates the
user; the claim that signup rejects syntactically invalid emails is false. -/
theorem signup_invalid_email_accepted_counterexample :
    zodEmailOk "not-an-email" = false ∧
    (signupPOST [] 0 "u1" none
        ⟨some "not-an-email", some "secret123", none, some "LEARNER", none⟩).1.status
      = 201 ∧
    (signupPOST [] 0 "u1" none
        ⟨some "not-an-email", some "secret123", none, some "LEARNER", none⟩).2 =
      [⟨"u1", "not-an-email", bcryptHash "secret123" 10, none, "LEARNER", none, 0, 0⟩] := by
  refine ⟨by decide, by decide, by decide⟩

/-- C10 amended: signup performs no email format validation — any non-empty
email string, however malformed, is accepted and a user is created when the
email is fresh; only the login route enforces the email format, rejecting an
invalid email with a 400 validation response. -/
theorem signup_skips_email_format_validation
    (env : Env) (db : Db) (now : Nat) (newId : String) (em pw rl s : String)
    (fn dob : Option String)
    (hem : em.isEmpty = false) (hpw : pw.isEmpty = false) (hrl : rl.isEmpty = false)
    (hfresh : findByEmail db em = none) (hbad : zodEmailOk s = false) :
    signupPOST db now newId none ⟨some em, some pw, fn, some rl, dob⟩ =
      (⟨201, userWithoutPassword ⟨newId, em, bcryptHash pw 10, fn, rl, dob, now, now⟩⟩,
       db ++ [⟨newId, em, bcryptHash pw 10, fn, rl, dob, now, now⟩]) ∧
    (loginPOST env db now none ⟨some s, some pw⟩).1.status = 400 := by
  constructor
  · unfold signupPOST
    simp [falsyStr, hem, hpw, hrl, hfresh]
  · unfold loginPOST
    simp [loginValidationErrors, hbad, hpw]

/-- C10 amended witness: a concrete malformed email accepted by signup and
rejected by login validation. -/
theorem signup_skips_email_format_validation_witness :
    signupPOST [] 3 "u1" none
        ⟨some "invalid-email", some "pw123", none, some "LEARNER", none⟩ =
      (⟨201, userWithoutPassword
          ⟨"u1", "invalid-email", bcryptHash "pw123" 10, none, "LEARNER", none, 3, 3⟩⟩,
       [⟨"u1", "invalid-email", bcryptHash "pw123" 10, none, "LEARNER", none, 3, 3⟩]) ∧
    (loginPOST envProd [] 3 none ⟨some "invalid-email", some "pw123"⟩).1.status = 400 :=
  signup_skips_email_format_validation envProd [] 3 "u1" "invalid-email" "pw123"
    "LEARNER" "invalid-email" none none
    (by decide) (by decide) (by decide) (by decide) (by decide)

/-- C2: a login against an email that matches no user and a login against an
existing email with a wrong password produce identical responses — the same
invalid-credentials message and the same 401 status. -/
theorem login_unknown_email_wrong_password_same_response
    (env : Env) (db : Db) (now1 now2 : Nat) (b1 b2 : LoginBody) (u : User)
    (hv1 : (loginValidationErrors b1).isEmpty = true)
    (hv2 : (loginValidationErrors b2).isEmpty = true)
    (h1 : findByEmail db (b1.email.getD "") = none)
    (h2 : findByEmail db (b2.email.getD "") = some u)
    (hw : bcryptCompare (b2.password.getD "") u.password = false) :
    (loginPOST env db now1 none b1).1 = (loginPOST env db now2 none b2).1 ∧
    (loginPOST env db now1 none b1).1.status = 401 := by
  unfold loginPOST
  simp [hv1, hv2, h1, h2, hw]

/-- C2 witness: a non-existent email and a wrong password against the stored
fixture get the very same response. -/
theorem login_unknown_email_wrong_password_same_response_witness :
    (loginPOST envProd [userA] 3 none ⟨some "c@d.com", some "whatever"⟩).1 =
      (loginPOST envProd [userA] 7 none ⟨some "a@b.com", some "wrongpw"⟩).1 ∧
    (loginPOST envProd [userA] 3 none ⟨some "c@d.com", some "whatever"⟩).1.status = 401 :=
  login_unknown_email_wrong_password_same_response envProd [userA] 3 7
    ⟨some "c@d.com", some "whatever"⟩ ⟨some "a@b.com", some "wrongpw"⟩ userA
    (by decide) (by decide) (by decide) (by decide) (by decide)

/-- C3 counterexample: a persistence failure during signup produces a 500
whose body carries the stringified internal error in a details field, so the
claim that error bodies hold only a fixed generic message is false. -/
theorem signup_error_leaks_details_counterexample :
    (signupPOST [] 0 "u1" (some "connect ECONNREFUSED 5432")
        ⟨some "a@b.com", some "secret123", none, some "LEARNER", none⟩).1 =
      ⟨500, Json.obj [("error", Json.str "Something went wrong"),
                      ("details", Json.str "connect ECONNREFUSED 5432")]⟩ ∧
    Json.hasKey (signupPOST [] 0 "u1" (some "connect ECONNREFUSED 5432")
        ⟨some "a@b.com", some "secret123", none, some "LEARNER", none⟩).1.body
      "details" = true := by
  exact ⟨rfl, rfl⟩

/-- C3 amended: in a production posture the login and me error responses are
fixed generic bodies, but the signup catch-all 500 additionally exposes the
stringified internal error under a details key. -/
theorem production_error_responses
    (env : Env) (db : Db) (now : Nat) (newId : String) (e : String)
    (sb : SignupBody) (lb : LoginBody) (req : MeRequest) (p : JWTPayload)
    (hprod : (env.nodeEnv == "development") = false) :
    ((loginValidationErrors lb).isEmpty = true →
      (loginPOST env db now (some e) lb).1 =
        ⟨500, Json.obj [("success", Json.bool false),
                        ("message", Json.str "Internal server error")]⟩) ∧
    (verifyToken env now req = some p →
      meGET env db now (some e) req =
        ⟨500, Json.obj [("success", Json.bool false),
                        ("message", Json.str "Internal server error")]⟩) ∧
    ((falsyStr sb.email || falsyStr sb.password || falsyStr sb.role) = false →
      (signupPOST db now newId (some e) sb).1 =
        ⟨500, Json.obj [("error", Json.str "Something went wrong"),
                        ("details", Json.str e)]⟩) := by
  refine ⟨?_, ?_, ?_⟩
  · intro hv
    unfold loginPOST
    simp [hv, hprod]
  · intro hp
    unfold meGET
    simp [hp]
  · intro hok
    unfold signupPOST
    simp [hok]

/-- C3 amended witness: the three production-posture behaviours at concrete
requests, including a verifying token for the me endpoint. -/
theorem production_error_responses_witness :
    (((loginValidationErrors ⟨some "a@b.com", some "pw"⟩).isEmpty = true →
      (loginPOST envProd [userA] 5 (some "boom") ⟨some "a@b.com", some "pw"⟩).1 =
        ⟨500, Json.obj [("success", Json.bool false),
                        ("message", Json.str "Internal server error")]⟩) ∧
    (verifyToken envProd 5 ⟨some (HeaderValue.bearer (TokenWire.signed tokA)), none⟩ =
        some ⟨"u1", "a@b.com", "LEARNER"⟩ →
      meGET envProd [userA] 5 (some "boom")
          ⟨some (HeaderValue.bearer (TokenWire.signed tokA)), none⟩ =
        ⟨500, Json.obj [("success", Json.bool false),
                        ("message", Json.str "Internal server error")]⟩) ∧
    ((falsyStr (some "a@b.com") || falsyStr (some "pw") || falsyStr (some "LEARNER"))
        = false →
      (signupPOST [userA] 5 "u2" (some "boom")
          ⟨some "a@b.com", some "pw", none, some "LEARNER", none⟩).1 =
        ⟨500, Json.obj [("error", Json.str "Something went wrong"),
                        ("details", Json.str "boom")]⟩)) :=
  production_error_responses envProd [userA] 5 "u2" "boom"
    ⟨some "a@b.com", some "pw", none, some "LEARNER", none⟩
    ⟨some "a@b.com", some "pw"⟩
    ⟨some (HeaderValue.bearer (TokenWire.signed tokA)), none⟩
    ⟨"u1", "a@b.com", "LEARNER"⟩ (by decide)

/-- C6 counterexample: a cryptographically valid, unexpired token carried
only in the session cookie is rejected with 401 even though the referenced
user exists, so the cookie transport does not succeed and the claim that
both transports are accepted is false. -/
theorem me_cookie_transport_rejected_counterexample :
    jwtVerify tokA (JWT_SECRET envProd) 5 = some ⟨"u1", "a@b.com", "LEARNER"⟩ ∧
    findById [userA] "u1" = some userA ∧
    meGET envProd [userA] 5 none ⟨none, some (TokenWire.signed tokA)⟩ =
      ⟨401, Json.obj [("success", Json.bool false),
                      ("message", Json.str "Unauthorized - Invalid or missing token")]⟩ := by
  exact ⟨by decide, by decide, rfl⟩

/-- C6 amended: only the Authorization Bearer header transport is accepted:
a verifying bearer token for an existing user succeeds, while every request
without an authorization header is answered 401 whatever its cookie holds. -/
theorem me_accepts_bearer_header_only
    (env : Env) (db : Db) (now : Nat) (t : SignedToken) (u : User)
    (ck : Option TokenWire)
    (hsec : t.secret = JWT_SECRET env) (hexp : now < t.exp)
    (hu : findById db t.payload.id = some u) :
    meGET env db now none ⟨some (HeaderValue.bearer (TokenWire.signed t)), ck⟩ =
      ⟨200, Json.obj [("success", Json.bool true), ("user", meSelectJson u)]⟩ ∧
    ∀ (db2 : Db) (now2 : Nat) (de2 : Option String) (ck2 : Option TokenWire),
      (meGET env db2 now2 de2 ⟨none, ck2⟩).status = 401 := by
  constructor
  · unfold meGET verifyToken jwtVerify
    simp [hsec, hexp, hu]
  · intro db2 now2 de2 ck2
    rfl

/-- C6 amended witness: the fixture token succeeds through the header and a
headerless request is 401 even with the token in the cookie. -/
theorem me_accepts_bearer_header_only_witness :
    (meGET envProd [userA] 5 none
        ⟨some (HeaderValue.bearer (TokenWire.signed tokA)), none⟩ =
      ⟨200, Json.obj [("success", Json.bool true), ("user", meSelectJson userA)]⟩ ∧
    ∀ (db2 : Db) (now2 : Nat) (de2 : Option String) (ck2 : Option TokenWire),
      (meGET envProd db2 now2 de2 ⟨none, ck2⟩).status = 401) :=
  me_accepts_bearer_header_only envProd [userA] 5 tokA userA none
    (by decide) (by decide) (by decide)

/-- C7: token verification is total by construction, returning an optional
payload, and whenever the credential is missing, not of the Bearer shape,
malformed, mis-signed, or expired, verification yields none and the me
handler answers the undifferentiated 401 — never a crash. -/
theorem me_bad_token_unauthorized
    (env : Env) (db : Db) (now : Nat) (de : Option String) (req : MeRequest)
    (hbad : req.authorization = none ∨
      (∃ s, req.authorization = some (HeaderValue.nonBearer s)) ∨
      (∃ s, req.authorization = some (HeaderValue.bearer (TokenWire.malformed s))) ∨
      (∃ t, req.authorization = some (HeaderValue.bearer (TokenWire.signed t)) ∧
        (t.secret ≠ JWT_SECRET env ∨ t.exp ≤ now))) :
    verifyToken env now req = none ∧
    meGET env db now de req =
      ⟨401, Json.obj [("success", Json.bool false),
                      ("message", Json.str "Unauthorized - Invalid or missing token")]⟩ := by
  have hv : verifyToken env now req = none := by
    rcases hbad with h | ⟨s, h⟩ | ⟨s, h⟩ | ⟨t, h, hbad2⟩
    · simp [verifyToken, h]
    · simp [verifyToken, h]
    · simp [verifyToken, h]
    · simp [verifyToken, h, jwtVerify_eq_none t (JWT_SECRET env) now hbad2]
  refine ⟨hv, ?_⟩
  unfold meGET
  rw [hv]

/-- C7 witness: the fixture token well past its seven-day expiry is rejected
with the 401 body. -/
theorem me_bad_token_unauthorized_witness :
    verifyToken envProd 9999999
        ⟨some (HeaderValue.bearer (TokenWire.signed tokA)), none⟩ = none ∧
    meGET envProd [userA] 9999999 none
        ⟨some (HeaderValue.bearer (TokenWire.signed tokA)), none⟩ =
      ⟨401, Json.obj [("success", Json.bool false),
                      ("message", Json.str "Unauthorized - Invalid or missing token")]⟩ :=
  me_bad_token_unauthorized envProd [userA] 9999999 none
    ⟨some (HeaderValue.bearer (TokenWire.signed tokA)), none⟩
    (Or.inr (Or.inr (Or.inr ⟨tokA, rfl, Or.inr (by decide)⟩)))

/-- C8: a verifying, unexpired token whose embedded id matches no stored
user makes the me handler answer the 404 user-not-found body, never a
success response. -/
theorem me_valid_token_missing_user_not_found
    (env : Env) (db : Db) (now : Nat) (t : SignedToken) (ck : Option TokenWire)
    (hsec : t.secret = JWT_SECRET env) (hexp : now < t.exp)
    (habs : findById db t.payload.id = none) :
    meGET env db now none ⟨some (HeaderValue.bearer (TokenWire.signed t)), ck⟩ =
      ⟨404, Json.obj [("success", Json.bool false),
                      ("message", Json.str "User not found")]⟩ := by
  unfold meGET verifyToken jwtVerify
  simp [hsec, hexp, habs]

/-- C8 witness: the fixture token against an empty table is 404. -/
theorem me_valid_token_missing_user_not_found_witness :
    meGET envProd [] 5 none
        ⟨some (HeaderValue.bearer (TokenWire.signed tokA)), none⟩ =
      ⟨404, Json.obj [("success", Json.bool false),
                      ("message", Json.str "User not found")]⟩ :=
  me_valid_token_missing_user_not_found envProd [] 5 tokA none
    (by decide) (by decide) (by decide)

/-- C5: the signup, login, me round trip: signing up a fresh email creates
the row; logging in with the same credentials succeeds and issues the
seven-day token over the row id, email and role; presenting that token to
the me endpoint while the user still exists returns 200 carrying exactly the
id and email stored at signup. -/
theorem signup_login_me_roundtrip
    (env : Env) (db : Db) (t0 t1 t2 : Nat) (nid em pw rl : String)
    (fn dob : Option String)
    (hem : em.isEmpty = false) (hpw : pw.isEmpty = false) (hrl : rl.isEmpty = false)
    (hzod : zodEmailOk em = true)
    (hfresh : findByEmail db em = none)
    (hid : findById db nid = none)
    (hexp : t2 < t1 + sevenDaysSec) :
    signupPOST db t0 nid none ⟨some em, some pw, fn, some rl, dob⟩ =
      (⟨201, userWithoutPassword ⟨nid, em, bcryptHash pw 10, fn, rl, dob, t0, t0⟩⟩,
       db ++ [⟨nid, em, bcryptHash pw 10, fn, rl, dob, t0, t0⟩]) ∧
    loginPOST env (db ++ [⟨nid, em, bcryptHash pw 10, fn, rl, dob, t0, t0⟩]) t1 none
        ⟨some em, some pw⟩ =
      (⟨200, Json.obj
          [("success", Json.bool true),
           ("message", Json.str "Login successful"),
           ("token", Json.tokenStrOf nid em rl (JWT_SECRET env) (t1 + sevenDaysSec)),
           ("user", userWithoutPassword ⟨nid, em, bcryptHash pw 10, fn, rl, dob, t0, t0⟩)]⟩,
       some (jwtSign ⟨nid, em, rl⟩ (JWT_SECRET env) sevenDaysSec t1)) ∧
    meGET env (db ++ [⟨nid, em, bcryptHash pw 10, fn, rl, dob, t0, t0⟩]) t2 none
        ⟨some (HeaderValue.bearer (TokenWire.signed
            (jwtSign ⟨nid, em, rl⟩ (JWT_SECRET env) sevenDaysSec t1))), none⟩ =
      ⟨200, Json.obj
          [("success", Json.bool true),
           ("user", Json.obj
              [("id", Json.str nid),
               ("fullName", jsonOfOptStr fn),
               ("email", Json.str em),
               ("role", Json.str rl),
               ("createdAt", Json.num t0)])]⟩ := by
  have hfind : findByEmail (db ++ [⟨nid, em, bcryptHash pw 10, fn, rl, dob, t0, t0⟩]) em
      = some ⟨nid, em, bcryptHash pw 10, fn, rl, dob, t0, t0⟩ := by
    unfold findByEmail at hfresh ⊢
    rw [find?_append_of_none _ _ _ hfresh]
    simp [List.find?]
  have hfindId : findById (db ++ [⟨nid, em, bcryptHash pw 10, fn, rl, dob, t0, t0⟩]) nid
      = some ⟨nid, em, bcryptHash pw 10, fn, rl, dob, t0, t0⟩ := by
    unfold findById at hid ⊢
    rw [find?_append_of_none _ _ _ hid]
    simp [List.find?]
  refine ⟨?_, ?_, ?_⟩
  · unfold signupPOST
    simp [falsyStr, hem, hpw, hrl, hfresh]
  · unfold loginPOST
    simp [loginValidationErrors, hzod, hpw, hfind, bcryptCompare, jwtSign,
      sevenDaysSec]
  · unfold meGET verifyToken jwtVerify
    simp [jwtSign, sevenDaysSec] at hexp ⊢
    simp [hexp, hfindId, meSelectJson]

/-- C5 witness: the full round trip at a concrete fresh user. -/
theorem signup_login_me_roundtrip_witness :
    (signupPOST [] 0 "u9" none ⟨some "c@d.com", some "pw123", none, some "LEARNER", none⟩ =
      (⟨201, userWithoutPassword ⟨"u9", "c@d.com", bcryptHash "pw123" 10, none, "LEARNER", none, 0, 0⟩⟩,
       [⟨"u9", "c@d.com", bcryptHash "pw123" 10, none, "LEARNER", none, 0, 0⟩]) ∧
    loginPOST envProd [⟨"u9", "c@d.com", bcryptHash "pw123" 10, none, "LEARNER", none, 0, 0⟩]
        10 none ⟨some "c@d.com", some "pw123"⟩ =
      (⟨200, Json.obj
          [("success", Json.bool true),
           ("message", Json.str "Login successful"),
           ("token", Json.tokenStrOf "u9" "c@d.com" "LEARNER" (JWT_SECRET envProd)
              (10 + sevenDaysSec)),
           ("user", userWithoutPassword
              ⟨"u9", "c@d.com", bcryptHash "pw123" 10, none, "LEARNER", none, 0, 0⟩)]⟩,
       some (jwtSign ⟨"u9", "c@d.com", "LEARNER"⟩ (JWT_SECRET envProd) sevenDaysSec 10)) ∧
    meGET envProd [⟨"u9", "c@d.com", bcryptHash "pw123" 10, none, "LEARNER", none, 0, 0⟩]
        20 none
        ⟨some (HeaderValue.bearer (TokenWire.signed
            (jwtSign ⟨"u9", "c@d.com", "LEARNER"⟩ (JWT_SECRET envProd) sevenDaysSec 10))),
         none⟩ =
      ⟨200, Json.obj
          [("success", Json.bool true),
           ("user", Json.obj
              [("id", Json.str "u9"),
               ("fullName", jsonOfOptStr none),
               ("email", Json.str "c@d.com"),
               ("role", Json.str "LEARNER"),
               ("createdAt", Json.num 0)])]⟩) :=
  signup_login_me_roundtrip envProd [] 0 10 20 "u9" "c@d.com" "pw123" "LEARNER"
    none none (by decide) (by decide) (by decide) (by decide) (by decide)
    (by decide) (by decide)

end RuralEdu
